import Mathlib

set_option maxRecDepth 10000
set_option maxHeartbeats 1600000

/-!
Verification of the Afleuncer affiliate-tracking platform core:
webhook idempotency (`process_webhook_idempotently`, `handle_refersion_webhook`),
attribution and commission computation (`WebhookProcessor`), the redirect
resolvers (`redirect_slug`, `handle_redirect`), click recording and fraud
scoring (`ClickService`), and webhook signature validation
(`WebhookValidator`).  Pure Python functions become Lean functions; the
database becomes an explicit state record threaded through each handler;
Python `Decimal` values become exact rationals; Python `float` values are
modelled as binary64 via an executable round-to-nearest-even on rationals;
`hashlib.sha256` is implemented concretely below.
-/

namespace Afl

/-! ### SHA-256 (hashlib.sha256, FIPS 180-4), over byte lists -/

/-- Two to the thirty-two, the modulus of all 32-bit word arithmetic. -/
def M32 : Nat := 4294967296

/-- Right-rotate a 32-bit word by `n` bits. -/
def rotr (n w : Nat) : Nat := ((w >>> n) ||| (w <<< (32 - n))) % M32

/-- SHA-256 small sigma 0: rotr 7 xor rotr 18 xor shr 3. -/
def ssig0 (w : Nat) : Nat := (rotr 7 w) ^^^ (rotr 18 w) ^^^ (w >>> 3)

/-- SHA-256 small sigma 1: rotr 17 xor rotr 19 xor shr 10. -/
def ssig1 (w : Nat) : Nat := (rotr 17 w) ^^^ (rotr 19 w) ^^^ (w >>> 10)

/-- SHA-256 big Sigma 0: rotr 2 xor rotr 13 xor rotr 22. -/
def bsig0 (w : Nat) : Nat := (rotr 2 w) ^^^ (rotr 13 w) ^^^ (rotr 22 w)

/-- SHA-256 big Sigma 1: rotr 6 xor rotr 11 xor rotr 25. -/
def bsig1 (w : Nat) : Nat := (rotr 6 w) ^^^ (rotr 11 w) ^^^ (rotr 25 w)

/-- SHA-256 choice function. -/
def chF (e f g : Nat) : Nat := (e &&& f) ^^^ ((e ^^^ 4294967295) &&& g)

/-- SHA-256 majority function. -/
def majF (a b c : Nat) : Nat := (a &&& b) ^^^ (a &&& c) ^^^ (b &&& c)

/-- The 64 SHA-256 round constants (FIPS 180-4, in decimal). -/
def K256 : List Nat :=
  [1116352408, 1899447441, 3049323471, 3921009573, 961987163, 1508970993,
   2453635748, 2870763221, 3624381080, 310598401, 607225278, 1426881987,
   1925078388, 2162078206, 2614888103, 3248222580, 3835390401, 4022224774,
   264347078, 604807628, 770255983, 1249150122, 1555081692, 1996064986,
   2554220882, 2821834349, 2952996808, 3210313671, 3336571891, 3584528711,
   113926993, 338241895, 666307205, 773529912, 1294757372, 1396182291,
   1695183700, 1986661051, 2177026350, 2456956037, 2730485921, 2820302411,
   3259730800, 3345764771, 3516065817, 3600352804, 4094571909, 275423344,
   430227734, 506948616, 659060556, 883997877, 958139571, 1322822218,
   1537002063, 1747873779, 1955562222, 2024104815, 2227730452, 2361852424,
   2428436474, 2756734187, 3204031479, 3329325298]

/-- The eight-word SHA-256 working state / chaining value. -/
structure Sha8 where
  a : Nat
  b : Nat
  c : Nat
  d : Nat
  e : Nat
  f : Nat
  g : Nat
  hh : Nat
deriving DecidableEq

/-- The SHA-256 initial hash value (FIPS 180-4, in decimal). -/
def sha256Init : Sha8 :=
  ⟨1779033703, 3144134277, 1013904242, 2773480762,
   1359893119, 2600822924, 528734635, 1541459225⟩

/-- Word `i` of a schedule list, defaulting to 0 (never hit in range). -/
def wAt (l : List Nat) (i : Nat) : Nat := l.getD i 0

/-- One message-schedule extension step: append word W[t] for t = length. -/
def schedStep (l : List Nat) : List Nat :=
  l ++ [(ssig1 (wAt l (l.length - 2)) + wAt l (l.length - 7) +
         ssig0 (wAt l (l.length - 15)) + wAt l (l.length - 16)) % M32]

/-- Extend a 16-word block to the full 64-word message schedule. -/
def buildW (block : List Nat) : List Nat :=
  (List.range 48).foldl (fun l _ => schedStep l) block

/-- One SHA-256 compression round with round constant plus schedule word. -/
def sha256Round (st : Sha8) (kw : Nat × Nat) : Sha8 :=
  let t1 := (st.hh + bsig1 st.e + chF st.e st.f st.g + kw.1 + kw.2) % M32
  let t2 := (bsig0 st.a + majF st.a st.b st.c) % M32
  ⟨(t1 + t2) % M32, st.a, st.b, st.c, (st.d + t1) % M32, st.e, st.f, st.g⟩

/-- Compress one 16-word block into the chaining value. -/
def sha256Compress (st : Sha8) (block : List Nat) : Sha8 :=
  let fin := (K256.zip (buildW block)).foldl sha256Round st
  ⟨(st.a + fin.a) % M32, (st.b + fin.b) % M32, (st.c + fin.c) % M32,
   (st.d + fin.d) % M32, (st.e + fin.e) % M32, (st.f + fin.f) % M32,
   (st.g + fin.g) % M32, (st.hh + fin.hh) % M32⟩

/-- A natural number as `n` big-endian bytes. -/
def natBytesBE : Nat → Nat → List Nat
  | 0, _ => []
  | n + 1, v => natBytesBE n (v / 256) ++ [v % 256]

/-- SHA-256 padding: append 0x80, zeros to 56 mod 64, and the 64-bit length. -/
def sha256Pad (msg : List Nat) : List Nat :=
  msg ++ [0x80] ++ List.replicate ((119 - msg.length % 64) % 64) 0 ++
    natBytesBE 8 (8 * msg.length)

/-- Group bytes four at a time into big-endian 32-bit words. -/
def bytesToWords : List Nat → List Nat
  | b0 :: b1 :: b2 :: b3 :: rest =>
      (b0 * 16777216 + b1 * 65536 + b2 * 256 + b3) :: bytesToWords rest
  | _ => []

/-- Group a word list into 16-word blocks. -/
def wordBlocks : List Nat → List (List Nat)
  | w0 :: w1 :: w2 :: w3 :: w4 :: w5 :: w6 :: w7 ::
    w8 :: w9 :: w10 :: w11 :: w12 :: w13 :: w14 :: w15 :: rest =>
      [w0, w1, w2, w3, w4, w5, w6, w7, w8, w9, w10, w11, w12, w13, w14, w15] ::
        wordBlocks rest
  | _ => []

/-- The SHA-256 digest of a byte list, as the eight-word chaining value. -/
def sha256Words (msg : List Nat) : Sha8 :=
  (wordBlocks (bytesToWords (sha256Pad msg))).foldl sha256Compress sha256Init

/-- The lowercase hex character for a nibble. -/
def hexChar (n : Nat) : Char :=
  "0123456789abcdef".toList.getD n '0'

/-- A 32-bit word as its eight lowercase hex characters. -/
def wordHex (w : Nat) : List Char :=
  [hexChar ((w >>> 28) % 16), hexChar ((w >>> 24) % 16),
   hexChar ((w >>> 20) % 16), hexChar ((w >>> 16) % 16),
   hexChar ((w >>> 12) % 16), hexChar ((w >>> 8) % 16),
   hexChar ((w >>> 4) % 16), hexChar (w % 16)]

/-- The hex digest (as `hashlib.sha256(...).hexdigest()`) of a byte list. -/
def sha256HexBytes (msg : List Nat) : String :=
  let d := sha256Words msg
  String.mk (wordHex d.a ++ wordHex d.b ++ wordHex d.c ++ wordHex d.d ++
             wordHex d.e ++ wordHex d.f ++ wordHex d.g ++ wordHex d.hh)

/-- UTF-8 encoding of one character (Python `str.encode()`). -/
def utf8Bytes (c : Char) : List Nat :=
  let n := c.toNat
  if n < 128 then [n]
  else if n < 2048 then [192 + n / 64, 128 + n % 64]
  else if n < 65536 then [224 + n / 4096, 128 + (n / 64) % 64, 128 + n % 64]
  else [240 + n / 262144, 128 + (n / 4096) % 64, 128 + (n / 64) % 64,
        128 + n % 64]

/-- UTF-8 encoding of a string, as Python `s.encode()`. -/
def strBytes (s : String) : List Nat := (s.toList.map utf8Bytes).flatten

/-- Hex digest of a string, as `hashlib.sha256(s.encode()).hexdigest()`. -/
def sha256Hex (s : String) : String := sha256HexBytes (strBytes s)

/-! ### HMAC-SHA256 (Python `hmac.new(key, msg, hashlib.sha256)`) -/

/-- The digest of a byte list, as the 32 raw digest bytes. -/
def sha256Bytes (msg : List Nat) : List Nat :=
  let d := sha256Words msg
  natBytesBE 4 d.a ++ natBytesBE 4 d.b ++ natBytesBE 4 d.c ++ natBytesBE 4 d.d ++
    natBytesBE 4 d.e ++ natBytesBE 4 d.f ++ natBytesBE 4 d.g ++ natBytesBE 4 d.hh

/-- Pad or reduce an HMAC key to the 64-byte SHA-256 block size. -/
def hmacKeyBlock (key : List Nat) : List Nat :=
  let k0 := if key.length > 64 then sha256Bytes key else key
  k0 ++ List.replicate (64 - k0.length) 0

/-- HMAC-SHA256 hex digest of a message under a key, both byte lists. -/
def hmacSha256Hex (key msg : List Nat) : String :=
  let kb := hmacKeyBlock key
  sha256HexBytes ((kb.map (fun b => b ^^^ 0x5c)) ++
    sha256Bytes ((kb.map (fun b => b ^^^ 0x36)) ++ msg))

/-! ### Binary64 floats as exact rationals

Python floats are IEEE-754 binary64 with correctly rounded operations.
`fl` is round-to-nearest, ties-to-even, to a 53-bit significand (the normal
range; the monetary magnitudes in this code never reach subnormals or
overflow), written executably over `ℚ`. -/

/-- Fuelled base-2 logarithm helper (structural recursion on the fuel). -/
def nlog2F : Nat → Nat → Nat
  | 0, _ => 0
  | fuel + 1, n => if 2 ≤ n then nlog2F fuel (n / 2) + 1 else 0

/-- Floor base-2 logarithm of a natural number (0 for 0 and 1). -/
def nlog2 (n : Nat) : Nat := nlog2F n n

/-- Round a positive rational to the nearest binary64 value (normal range). -/
def flPos (q : ℚ) : ℚ :=
  let a := q.num.toNat
  let b := q.den
  let t := nlog2 a
  let u := nlog2 b
  let E : Int := (t : Int) - (u : Int) - (if b * 2 ^ t ≤ a * 2 ^ u then 0 else 1)
  let e : Int := 52 - E
  let num := if 0 ≤ e then a * 2 ^ e.toNat else a
  let den := if 0 ≤ e then b else b * 2 ^ (-e).toNat
  let m0 := num / den
  let r2 := 2 * (num % den)
  let m := if den < r2 then m0 + 1
           else if r2 < den then m0
           else if m0 % 2 = 0 then m0 else m0 + 1
  if 0 ≤ e then (m : ℚ) / ((2 ^ e.toNat : Nat) : ℚ)
  else (m : ℚ) * ((2 ^ (-e).toNat : Nat) : ℚ)

/-- Round a rational to the nearest binary64 value (normal range). -/
def fl (q : ℚ) : ℚ :=
  if q = 0 then 0 else if q < 0 then -flPos (-q) else flPos q

/-- Python float multiplication: exact product, correctly rounded. -/
def fmul (x y : ℚ) : ℚ := fl (x * y)

/-- Python float subtraction: exact difference, correctly rounded. -/
def fsub (x y : ℚ) : ℚ := fl (x - y)

/-! ### Commission arithmetic

Two distinct implementations exist in the source.

`api/routes/webhooks.py` (`handle_refersion_webhook`) computes with Python
`Decimal`: `platform_fee = webhook.commission_amount * Decimal("0.20")` and
`net_amount = webhook.commission_amount - platform_fee`.  For the monetary
magnitudes involved these products are exact in the default 28-digit Decimal
context, so `Decimal` arithmetic embeds as exact rational arithmetic.

`core_api.py` (`WebhookProcessor.process_attribution`) computes with Python
`float`: `gross = float(subtotal) * float(commission_value)` (percent type)
or `float(commission_value)` (fixed type), then
`platform_fee = gross * config.PLATFORM_FEE_RATE` with
`PLATFORM_FEE_RATE = float(os.getenv('PLATFORM_FEE_RATE', '0.20'))`, and
`net = gross - platform_fee`. -/

/-- Decimal platform fee from webhooks.py: gross times Decimal 0.20, exact. -/
def refersionPlatformFee (gross : ℚ) : ℚ := gross * (20 / 100)

/-- Decimal net amount from webhooks.py: gross minus the platform fee. -/
def refersionNet (gross : ℚ) : ℚ := gross - refersionPlatformFee gross

/-- The float platform fee rate of core_api.py: float of the literal 0.20. -/
def PLATFORM_FEE_RATE : ℚ := fl (1 / 5)

/-- Gross commission of core_api.py process_attribution, float arithmetic. -/
def coreGrossCommission (commission_type : String) (subtotal commission_value : ℚ) : ℚ :=
  if commission_type = "percent" then fmul (fl subtotal) (fl commission_value)
  else fl commission_value

/-- Platform fee of core_api.py process_attribution, float arithmetic. -/
def corePlatformFee (gross : ℚ) : ℚ := fmul gross PLATFORM_FEE_RATE

/-- Net commission of core_api.py process_attribution, float arithmetic. -/
def coreNetCommission (gross : ℚ) : ℚ := fsub gross (corePlatformFee gross)

/-! ### Data model of the Refersion webhook path

Tables as created by `validate_pipeline.py` and used by
`api/routes/webhooks.py`.  UUIDs become naturals drawn from a fresh-id
counter `nextId` in the state. -/

/-- A webhook_events row.  Modelled from the spec: the table itself is
created by an SQL migration not in the source tree; its unique composite key
`(source, external_event_id)` is the spec's idempotency key, corroborated by
the `ON CONFLICT (source, external_event_id)` clause in
`analyze_webhook_upsert.py`. -/
structure WebhookEvent where
  id : Nat
  source : String
  external_event_id : String
  event_type : String
  payload : String
  conversion_id : Option Nat
  status_code : Option Nat
  error_message : Option String
deriving DecidableEq

/-- A tracking_links row (validate_pipeline.py schema). -/
structure TrackingLink where
  id : Nat
  slug : String
  influencer_id : Nat
  program_id : Nat
  destination_url : String
  total_clicks : Nat
  total_conversions : Nat
  total_revenue : ℚ
  is_active : Bool
deriving DecidableEq

/-- A programs row as joined by the Refersion webhook handler. -/
structure Program where
  id : Nat
  commission_rate : ℚ
  cookie_window_days : Nat
deriving DecidableEq

/-- A conversions row (validate_pipeline.py schema; order_id is UNIQUE). -/
structure Conversion where
  id : Nat
  tracking_link_id : Nat
  order_id : String
  order_amount : ℚ
  commission_amount : ℚ
  status : String
deriving DecidableEq

/-- A commissions row (validate_pipeline.py schema). -/
structure Commission where
  id : Nat
  influencer_id : Nat
  conversion_id : Nat
  amount : ℚ
  platform_fee : ℚ
  net_amount : ℚ
  status : String
deriving DecidableEq

/-- The relational state threaded through the webhook handlers. -/
structure DBState where
  webhook_events : List WebhookEvent
  tracking_links : List TrackingLink
  programs : List Program
  conversions : List Conversion
  commissions : List Commission
  nextId : Nat
deriving DecidableEq

/-- The row set returned by `process_webhook_idempotently`. -/
structure ProcessResult where
  is_duplicate : Bool
  webhook_event_id : Nat
  conversion_id : Option Nat
deriving DecidableEq

/-- Does a webhook_events row match the idempotency key? -/
def keyMatch (source extId : String) (r : WebhookEvent) : Bool :=
  r.source == source && r.external_event_id == extId

/-- The plpgsql function `process_webhook_idempotently` (fix_function.py):
try to INSERT the new row; on `unique_violation` of the
`(source, external_event_id)` key, SELECT the existing row and return it
with `is_duplicate = true`.  Under the unique constraint the insert raises
exactly when a row with the key already exists, so the attempt-then-fallback
is the match below. -/
def process_webhook_idempotently (st : DBState)
    (source extId eventType payload : String) : DBState × ProcessResult :=
  match st.webhook_events.find? (keyMatch source extId) with
  | some r => (st, ⟨true, r.id, r.conversion_id⟩)
  | none =>
      ({ st with
          webhook_events := st.webhook_events ++
            [⟨st.nextId, source, extId, eventType, payload, none, none, none⟩],
          nextId := st.nextId + 1 },
       ⟨false, st.nextId, none⟩)

/-- `n` repeated calls of `process_webhook_idempotently` with the same
arguments, returning the final state and the list of responses in order. -/
def processCalls (st : DBState) (source extId eventType payload : String) :
    Nat → DBState × List ProcessResult
  | 0 => (st, [])
  | n + 1 =>
      let prev := processCalls st source extId eventType payload n
      let step := process_webhook_idempotently prev.1 source extId eventType payload
      (step.1, prev.2 ++ [step.2])

/-- The HTTP outcome of the Refersion webhook route. -/
structure HandlerResponse where
  status : Nat
  body_status : String
  webhook_event_id : Option Nat
  conversion_id : Option Nat
deriving DecidableEq

/-- Which of the four write statements inside the handler transaction the
database fails (beyond the modelled unique violation): an exception at that
statement aborts and rolls back the transaction. -/
structure TxnFailure where
  failConversion : Bool
  failCommission : Bool
  failBackref : Bool
  failStats : Bool
deriving DecidableEq

/-- An oracle under which every statement succeeds. -/
def noFailure : TxnFailure := ⟨false, false, false, false⟩

/-- The Refersion webhook payload fields (pydantic model RefersionWebhook). -/
structure RefersionWebhook where
  event_type : String
  event_id : String
  order_id : String
  affiliate_id : String
  commission_amount : ℚ
  sale_amount : ℚ
  tracking_id : Option String
deriving DecidableEq

/-- The handler's tracking-link lookup:
`SELECT ... FROM tracking_links tl JOIN programs p ON p.id = tl.program_id
WHERE tl.slug = $1 OR tl.id::text = $2 LIMIT 1` with a SQL-NULL
`tracking_id` matching no slug. -/
def findTrackingLink (st : DBState) (tracking_id : Option String)
    (affiliate_id : String) : Option TrackingLink :=
  st.tracking_links.find? (fun tl =>
    st.programs.any (fun p => p.id == tl.program_id) &&
      (tracking_id == some tl.slug || toString tl.id == affiliate_id))

/-- Set the conversion_id backref on the webhook_events row with this id. -/
def setConversionId (events : List WebhookEvent) (weId cid : Nat) :
    List WebhookEvent :=
  events.map (fun e => if e.id == weId then { e with conversion_id := some cid } else e)

/-- Bump total_conversions and total_revenue on the tracking_links row. -/
def bumpLinkStats (links : List TrackingLink) (linkId : Nat) (revenue : ℚ) :
    List TrackingLink :=
  links.map (fun l =>
    if l.id == linkId then
      { l with total_conversions := l.total_conversions + 1,
               total_revenue := l.total_revenue + revenue }
    else l)

/-- The write block of handle_refersion_webhook inside
`async with conn.transaction()`: conversion INSERT (which raises a unique
violation if the order_id is already present — conversions.order_id is
UNIQUE), commission INSERT, webhook-event backref UPDATE, link-stats UPDATE.
Any failure aborts the transaction: none of its writes survive, the
exception reaches the handler's `except`, and the route returns 500. -/
def refersionTxn (st1 : DBState) (w : RefersionWebhook) (link : TrackingLink)
    (weId : Nat) (oracle : TxnFailure) : DBState × HandlerResponse :=
  if st1.conversions.any (fun c => c.order_id == w.order_id) ||
      oracle.failConversion then
    (st1, ⟨500, "error", none, none⟩)
  else if oracle.failCommission then (st1, ⟨500, "error", none, none⟩)
  else if oracle.failBackref then (st1, ⟨500, "error", none, none⟩)
  else if oracle.failStats then (st1, ⟨500, "error", none, none⟩)
  else
    ({ st1 with
        conversions := st1.conversions ++
          [⟨st1.nextId, link.id, w.order_id, w.sale_amount,
            w.commission_amount, "pending"⟩],
        commissions := st1.commissions ++
          [⟨st1.nextId + 1, link.influencer_id, st1.nextId, w.commission_amount,
            refersionPlatformFee w.commission_amount,
            refersionNet w.commission_amount, "pending"⟩],
        webhook_events := setConversionId st1.webhook_events weId st1.nextId,
        tracking_links := bumpLinkStats st1.tracking_links link.id w.sale_amount,
        nextId := st1.nextId + 2 },
     ⟨200, "success", some weId, some st1.nextId⟩)

/-- handle_refersion_webhook after signature validation (webhooks.py): call
the idempotent function; on a duplicate return 202 with the existing ids and
no write; otherwise look up the tracking link (no match: accepted, no
conversion) and run the write transaction.  `payload` is the JSON-serialised
webhook body passed to the idempotent function. -/
def handleRefersionCore (st : DBState) (w : RefersionWebhook)
    (payload : String) (oracle : TxnFailure) : DBState × HandlerResponse :=
  let step := process_webhook_idempotently st "refersion" w.event_id w.event_type payload
  let st1 := step.1
  let r := step.2
  if r.is_duplicate then
    (st1, ⟨202, "accepted", some r.webhook_event_id, r.conversion_id⟩)
  else
    match findTrackingLink st1 w.tracking_id w.affiliate_id with
    | none => (st1, ⟨200, "accepted", some r.webhook_event_id, none⟩)
    | some link => refersionTxn st1 w link r.webhook_event_id oracle

/-- Python `s.split(sep, 1)` when it finds the separator: the text before
the first occurrence and the text after it. -/
def splitFirst (sep : Char) : List Char → Option (List Char × List Char)
  | [] => none
  | c :: rest =>
      if c = sep then some ([], rest)
      else (splitFirst sep rest).map (fun p => (c :: p.1, p.2))

/-- WebhookValidator.validate_signature (webhook_security.py, no timestamp):
constant-time comparison of the presented signature against the
HMAC-SHA256 hex digest of the raw body under the shared secret. -/
def validate_signature (secret body : List Nat) (signature : String) : Bool :=
  signature == hmacSha256Hex secret body

/-- The full Refersion route (webhooks.py): in production the
X-Refersion-Signature header must be present, parse as `sha256=<hex>`, and
validate against the HMAC of the raw body, else 401 before any storage
access; in any other environment validation is skipped with a log line. -/
def handleRefersionWebhook (environment : String) (secret : List Nat)
    (sigHeader : Option String) (rawBody : List Nat) (st : DBState)
    (w : RefersionWebhook) (payload : String) (oracle : TxnFailure) :
    DBState × HandlerResponse :=
  if environment == "production" then
    match sigHeader with
    | none => (st, ⟨401, "error", none, none⟩)
    | some header =>
        match splitFirst '=' header.toList with
        | none => (st, ⟨401, "error", none, none⟩)
        | some (alg, sig) =>
            if String.mk alg ≠ "sha256" then (st, ⟨401, "error", none, none⟩)
            else if validate_signature secret rawBody (String.mk sig) then
              handleRefersionCore st w payload oracle
            else (st, ⟨401, "error", none, none⟩)
  else handleRefersionCore st w payload oracle

/-! ### core_api.py: WebhookProcessor (Shopify path) and ClickService

A second, older implementation lives in core_api.py with its own schema
(SQLite DDL in the same file): conversions/attributions/commissions with
REAL (float) money columns, and each `db.execute` call acquires its own
connection, so every statement commits on its own — there is no enclosing
transaction. -/

/-- Python substring test `pat in s` on char lists. -/
def containsSubList (pat : List Char) : List Char → Bool
  | [] => pat.isPrefixOf []
  | c :: rest => pat.isPrefixOf (c :: rest) || containsSubList pat rest

/-- Python substring test `pat in s`. -/
def strContains (s pat : String) : Bool := containsSubList pat.toList s.toList

/-- The chars after the first occurrence of a pattern, if it occurs. -/
def afterPat (pat : List Char) : List Char → Option (List Char)
  | [] => none
  | c :: rest =>
      if pat.isPrefixOf (c :: rest) then some ((c :: rest).drop pat.length)
      else afterPat pat rest

/-- The chars before the next occurrence of a pattern (all if none). -/
def upToPat (pat : List Char) : List Char → List Char
  | [] => []
  | c :: rest => if pat.isPrefixOf (c :: rest) then [] else c :: upToPat pat rest

/-- Subid extraction of process_shopify:
`landing_site.split('ref=')[1].split('&')[0]` when `'ref='` occurs — the
text after the first `ref=`, cut at the next `ref=` and at the first `&`. -/
def extractRef (s : String) : Option String :=
  (afterPat "ref=".toList s.toList).map
    (fun l => String.mk ((upToPat "ref=".toList l).takeWhile (fun c => c ≠ '&')))

/-- A conversions row of the core_api.py schema (REAL money columns). -/
structure CoreConversion where
  id : Nat
  order_id : String
  subtotal : ℚ
  tax : ℚ
  shipping : ℚ
  total : ℚ
  currency : String
  subid : Option String
  status : String
deriving DecidableEq

/-- An attributions row of the core_api.py schema. -/
structure Attribution where
  id : Nat
  conversion_id : Nat
  tracking_link_id : Nat
  model : String
  match_type : String
  reason : String
deriving DecidableEq

/-- A commissions row of the core_api.py schema (REAL money columns). -/
structure CoreCommission where
  id : Nat
  attribution_id : Nat
  conversion_id : Nat
  influencer_id : Nat
  program_id : Nat
  gross_amount : ℚ
  platform_fee : ℚ
  net_amount : ℚ
  status : String
deriving DecidableEq

/-- A tracking_links row as read by process_attribution. -/
structure CoreLink where
  id : Nat
  slug : String
  influencer_id : Nat
  program_id : Nat
deriving DecidableEq

/-- A programs row of the core_api.py schema. -/
structure CoreProgram where
  id : Nat
  commission_type : String
  commission_value : ℚ
deriving DecidableEq

/-- The core_api.py relational state. -/
structure CoreState where
  conversions : List CoreConversion
  attributions : List Attribution
  commissions : List CoreCommission
  links : List CoreLink
  programs : List CoreProgram
  nextId : Nat
deriving DecidableEq

/-- Which of the separate, individually committed statements the database
fails; the raised exception propagates to the endpoint (500) but earlier
statements stay committed. -/
structure CoreFailure where
  failConversion : Bool
  failAttribution : Bool
  failCommission : Bool
deriving DecidableEq

/-- An oracle under which every core statement succeeds. -/
def coreNoFailure : CoreFailure := ⟨false, false, false⟩

/-- The link+program join of process_attribution:
`FROM tracking_links tl JOIN programs p ON tl.program_id = p.id
WHERE tl.slug = $1` (no is_active filter). -/
def findLinkProgram (st : CoreState) (slug : String) :
    Option (CoreLink × CoreProgram) :=
  match st.links.find? (fun tl =>
      tl.slug == slug && st.programs.any (fun p => p.id == tl.program_id)) with
  | none => none
  | some tl =>
      (st.programs.find? (fun p => p.id == tl.program_id)).map (fun p => (tl, p))

/-- WebhookProcessor.process_attribution (core_api.py): parse the subid,
look up the link, INSERT the attribution, compute the float commission, and
INSERT the commission — three separate auto-committed statements.  Returns
the state plus whether an exception was raised part-way. -/
def process_attribution (st : CoreState) (conversion_id : Nat) (subid : String)
    (oracle : CoreFailure) : CoreState × Bool :=
  let parts := subid.splitOn "_"
  if parts.length < 2 then (st, false)
  else
    match findLinkProgram st (parts.getD 1 "") with
    | none => (st, false)
    | some (link, prog) =>
        if oracle.failAttribution then (st, true)
        else
          let attrId := st.nextId
          let st1 : CoreState := { st with
            attributions := st.attributions ++
              [⟨attrId, conversion_id, link.id, "last_click", "subid",
                "Subid match: " ++ subid⟩],
            nextId := st.nextId + 1 }
          match st1.conversions.find? (fun c => c.id == conversion_id) with
          | none => (st1, true)
          | some conv =>
              let gross := coreGrossCommission prog.commission_type conv.subtotal
                prog.commission_value
              if oracle.failCommission then (st1, true)
              else
                ({ st1 with
                    commissions := st1.commissions ++
                      [⟨st1.nextId, attrId, conversion_id, link.influencer_id,
                        link.program_id, gross, corePlatformFee gross,
                        coreNetCommission gross, "pending"⟩],
                    nextId := st1.nextId + 1 },
                 false)

/-- The fields process_shopify reads from the Shopify order payload. -/
structure ShopifyPayload where
  id : Option String
  subtotal_price : ℚ
  total_tax : ℚ
  total_shipping : ℚ
  total_price : ℚ
  currency : String
  landing_site : String
deriving DecidableEq

/-- The HTTP-level outcome of the Shopify webhook endpoint. -/
inductive ShopifyResult where
  | badRequest : ShopifyResult
  | duplicate : String → ShopifyResult
  | success : Nat → String → ShopifyResult
  | serverError : ShopifyResult
deriving DecidableEq

/-- WebhookProcessor.process_shopify (core_api.py): reject a missing order
id; if a conversion with this order_id exists, report a duplicate (a normal
outcome, state untouched); else INSERT the conversion (auto-committed) and,
when a subid is present, run process_attribution.  An exception anywhere
surfaces as a 500 from the endpoint, with the already committed statements
kept.  (The optional Shopify HMAC check at the top of the function runs
only when SHOPIFY_WEBHOOK_SECRET is configured — its default is the empty
string, so the check is skipped and is not part of this model.) -/
def process_shopify (st : CoreState) (p : ShopifyPayload)
    (oracle : CoreFailure) : CoreState × ShopifyResult :=
  match p.id with
  | none => (st, .badRequest)
  | some oid =>
      if st.conversions.any (fun c => c.order_id == oid) then
        (st, .duplicate oid)
      else
        let subid := extractRef p.landing_site
        if oracle.failConversion then (st, .serverError)
        else
          let convId := st.nextId
          let st1 : CoreState := { st with
            conversions := st.conversions ++
              [⟨convId, oid, fl p.subtotal_price, fl p.total_tax,
                fl p.total_shipping, fl p.total_price, p.currency, subid,
                "pending"⟩],
            nextId := st.nextId + 1 }
          match subid with
          | none => (st1, .success convId oid)
          | some sid =>
              let att := process_attribution st1 convId sid oracle
              if att.2 then (att.1, .serverError) else (att.1, .success convId oid)

/-! ### core_api.py ClickService: fraud scoring and click recording -/

/-- The fraud-signal record of ClickService.check_fraud_signals. -/
structure FraudSignals where
  is_bot : Bool
  is_vpn : Bool
  velocity_exceeded : Bool
  score : ℚ
deriving DecidableEq

/-- The bot indicator substrings checked against the lowercased user agent. -/
def botIndicators : List String := ["bot", "crawler", "spider", "scraper", "curl", "wget"]

/-- ClickService.check_fraud_signals: a bot-indicator match adds 0.5 to the
score, a per-IP click count above RATE_LIMIT_CLICKS (100 per minute, via the
Redis `clicks:ip:<ip>` counter) adds 0.3; `redisCount` is the incremented
counter value, `none` when Redis is unavailable (the velocity check is then
skipped). -/
def check_fraud_signals (ua : String) (redisCount : Option Nat) : FraudSignals :=
  let uaLower := ua.toLower
  let isBot := botIndicators.any (fun pat => strContains uaLower pat)
  let vel := match redisCount with
    | some count => decide (100 < count)
    | none => false
  { is_bot := isBot, is_vpn := false, velocity_exceeded := vel,
    score := (if isBot then 1 / 2 else 0) + (if vel then 3 / 10 else 0) }

/-- Platform detection in ClickService.track_click. -/
def detectPlatform (ua : String) : String :=
  if strContains ua.toLower "mobile" then "mobile"
  else if strContains ua.toLower "tablet" then "tablet"
  else "desktop"

/-- ClickService.get_device_fingerprint: the first 32 hex chars of the
SHA-256 of `f"{user_agent}_{ip}"` — a deterministic function of the pair. -/
def get_device_fingerprint (user_agent ip : String) : String :=
  (sha256Hex (user_agent ++ "_" ++ ip)).take 32

/-- A clicks row of the core_api.py schema. -/
structure CoreClick where
  tracking_link_id : Nat
  ip_hash : String
  user_agent : String
  referrer : String
  device_id : String
  session_id : String
  fingerprint : String
  platform : String
  subid : Option String
  fraud_score : ℚ
  fraud_flags : FraudSignals
deriving DecidableEq

/-- The state touched by ClickService.track_click: the clicks table and the
Redis per-link stats counter (`stats:link:<slug>` field clicks). -/
structure ClickState where
  clicks : List CoreClick
  statsClicks : Nat
deriving DecidableEq

/-- ClickService.track_click after link resolution (core_api.py): run the
fraud check, hash the IP (`hashlib.sha256(ip.encode())`, unsalted), derive
the fingerprint, INSERT the click row unconditionally, and increment the
Redis stats counter when Redis is present — none of it conditional on the
fraud score. -/
def track_click (st : ClickState) (linkId : Nat) (subid : Option String)
    (ip user_agent referrer device_id session_id : String)
    (redisCount : Option Nat) : ClickState × CoreClick :=
  let fs := check_fraud_signals user_agent redisCount
  let click : CoreClick :=
    { tracking_link_id := linkId,
      ip_hash := sha256Hex ip,
      user_agent := user_agent.take 500,
      referrer := referrer.take 1000,
      device_id := device_id,
      session_id := session_id,
      fingerprint := get_device_fingerprint user_agent ip,
      platform := detectPlatform user_agent,
      subid := subid,
      fraud_score := fs.score,
      fraud_flags := fs }
  ({ clicks := st.clicks ++ [click],
     statsClicks := if redisCount.isSome then st.statsClicks + 1 else st.statsClicks },
   click)

/-! ### The redirect endpoints and the Redis client -/

/-- An HTTP response of a redirect endpoint: a status and the Location. -/
structure RedirectHttp where
  status : Nat
  location : Option String
deriving DecidableEq

/-- What the Redis read in redirect_slug produced: a cached
`{tracking_link_id, destination_url}` document, a miss, or an exception
(caught; treated as a miss). -/
inductive CacheRead where
  | val : Nat → String → CacheRead
  | miss : CacheRead
  | err : CacheRead
deriving DecidableEq

/-- The store query of redirect_slug (redirect.py):
`WHERE slug = $1 AND is_active = true LIMIT 1`. -/
def storeLookup (store : List TrackingLink) (slug : String) : Option TrackingLink :=
  store.find? (fun l => l.slug == slug && l.is_active)

/-- The lookup-and-respond part of redirect_slug (api/routes/redirect.py):
on a cache hit redirect to the cached URL; on a miss or a cache error fall
through to the store, 404 when no active row matches, else 302 to the exact
stored destination_url and a best-effort cache write whose failure
(`writeOk = false`) is caught and ignored. -/
def redirect_slug (cres : CacheRead) (writeOk : Bool)
    (store : List TrackingLink) (slug : String) : RedirectHttp :=
  let cachedUrl : Option (Nat × String) :=
    match cres with
    | .val i d => some (i, d)
    | .miss => none
    | .err => none
  match cachedUrl with
  | some (_, dest) => ⟨302, some dest⟩
  | none =>
      match storeLookup store slug with
      | none => ⟨404, none⟩
      | some row => ⟨302, some row.destination_url⟩

/-- Resolution against the store alone, with no cache configured. -/
def resolveStoreOnly (store : List TrackingLink) (slug : String) : RedirectHttp :=
  match storeLookup store slug with
  | none => ⟨404, none⟩
  | some row => ⟨302, some row.destination_url⟩

/-- RedisClient.get (lib/redis_client.py): `None` when not connected, `None`
on any exception (logged and swallowed), else the stored value. -/
def redisGet (connected raises : Bool) (value : Option String) : Option String :=
  if !connected then none else if raises then none else value

/-- hash_ip (api/routes/redirects.py): SHA-256 of the IP salted with
`:skinstack`. -/
def hash_ip (ip : String) : String := sha256Hex (ip ++ ":skinstack")

/-- The link document handle_redirect works with (cached or queried). -/
structure RLink where
  id : Nat
  destination_url : String
  influencer_id : Nat
  cookie_duration_days : Nat
deriving DecidableEq

/-- The store query of handle_redirect (redirects.py):
`FROM tracking_links tl JOIN programs p ON p.id = tl.program_id
WHERE tl.slug = $1 AND tl.is_active = true`. -/
def rlookup (links : List TrackingLink) (programs : List Program)
    (slug : String) : Option RLink :=
  match links.find? (fun tl =>
      tl.slug == slug && tl.is_active &&
        programs.any (fun p => p.id == tl.program_id)) with
  | none => none
  | some tl =>
      (programs.find? (fun p => p.id == tl.program_id)).map
        (fun p => ⟨tl.id, tl.destination_url, tl.influencer_id, p.cookie_window_days⟩)

/-- Device detection of parse_user_agent (redirects.py). -/
def rDeviceType (ua : String) : String :=
  if ["mobile", "android", "iphone"].any (fun x => strContains ua.toLower x) then "mobile"
  else if ["tablet", "ipad"].any (fun x => strContains ua.toLower x) then "tablet"
  else "desktop"

/-- Browser detection of parse_user_agent (redirects.py). -/
def rBrowser (ua : String) : String :=
  if strContains ua.toLower "chrome" then "chrome"
  else if strContains ua.toLower "firefox" then "firefox"
  else if strContains ua.toLower "safari" then "safari"
  else if strContains ua.toLower "edge" then "edge"
  else "unknown"

/-- A clicks row as inserted by handle_redirect (redirects.py). -/
structure RClick where
  tracking_link_id : Nat
  ip_hash : String
  user_agent : String
  referer : String
  device_type : String
  browser : String
deriving DecidableEq

/-- handle_redirect (api/routes/redirects.py): take the cached link if the
Redis read produced one, else query the store (active links joined with
their program); when no link is found respond 302 to `/` — not 404; when a
link is found record a click (ip hashed with hash_ip) and respond 302 to the
stored destination. -/
def handle_redirect (cachedLink : Option RLink) (links : List TrackingLink)
    (programs : List Program) (slug ip ua referer : String) :
    RedirectHttp × Option RClick :=
  let link := match cachedLink with
    | some l => some l
    | none => rlookup links programs slug
  match link with
  | none => (⟨302, some "/"⟩, none)
  | some l =>
      (⟨302, some l.destination_url⟩,
       some ⟨l.id, hash_ip ip, ua.take 500, referer.take 500,
             rDeviceType ua, rBrowser ua⟩)

/-! ### Concrete states used by witnesses and counterexamples -/

/-- An empty database state. -/
def emptyDB : DBState := ⟨[], [], [], [], [], 0⟩

/-- The webhook_events row the keyed insert of `process_webhook_idempotently`
creates on a fresh key. -/
def newEventRow (st : DBState) (source extId eventType payload : String) :
    WebhookEvent :=
  ⟨st.nextId, source, extId, eventType, payload, none, none, none⟩

/-- The state after a first call on a fresh key. -/
def afterFirstInsert (st : DBState) (source extId eventType payload : String) :
    DBState :=
  { st with
      webhook_events := st.webhook_events ++
        [newEventRow st source extId eventType payload],
      nextId := st.nextId + 1 }

/-- A state that already holds the webhook event, for the C10 witness. -/
def dupDB : DBState :=
  ⟨[⟨7, "refersion", "evt_1", "sale", "{}", some 3, none, none⟩],
   [], [], [], [], 8⟩

/-- A Refersion payload retrying the already-processed event evt_1. -/
def retryWebhook : RefersionWebhook :=
  ⟨"sale", "evt_1", "O1", "aff_9", 15, 75, some "abc123"⟩

/-- The storage-level invariant of the Refersion path: ids referenced by
rows are below the fresh-id counter, order_ids are pairwise distinct across
conversions (the UNIQUE key), and conversion_ids are pairwise distinct
across commissions (one commission per conversion). -/
structure DBInv (st : DBState) : Prop where
  convFresh : ∀ c ∈ st.conversions, c.id < st.nextId
  commFresh : ∀ m ∈ st.commissions, m.conversion_id < st.nextId
  orders : st.conversions.Pairwise (fun a b => a.order_id ≠ b.order_id)
  comms : st.commissions.Pairwise (fun a b => a.conversion_id ≠ b.conversion_id)

/-- How many conversions carry this order_id. -/
def convCountFor (st : DBState) (oid : String) : Nat :=
  (st.conversions.filter (fun c => c.order_id == oid)).length

/-- How many commissions are booked against a conversion of this order_id. -/
def commCountFor (st : DBState) (oid : String) : Nat :=
  (st.commissions.filter (fun m =>
    st.conversions.any (fun c => c.id == m.conversion_id && c.order_id == oid))).length

/-- A core state holding order O1 already, for the C2 witness. -/
def c2CoreSt : CoreState :=
  ⟨[⟨1, "O1", 75, 0, 0, 75, "USD", none, "pending"⟩], [], [], [], [], 2⟩

/-- A Shopify payload that re-delivers order O1. -/
def c2Payload : ShopifyPayload :=
  ⟨some "O1", 75, 0, 0, 75, "USD", "https://shop.example/"⟩

/-- A Refersion store where order O1 is already booked under event evt_A. -/
def c2St : DBState :=
  ⟨[⟨0, "refersion", "evt_A", "sale", "{}", some 1, none, none⟩],
   [⟨5, "abc123", 9, 1, "https://dest.example/p", 0, 0, 0, true⟩],
   [⟨1, 1 / 5, 7⟩],
   [⟨1, 5, "O1", 75, 15, "pending"⟩],
   [⟨2, 9, 1, 15, 3, 12, "pending"⟩],
   10⟩

/-- A distinct webhook event id referencing the same order O1. -/
def c2W : RefersionWebhook :=
  ⟨"sale", "evt_B", "O1", "aff_9", 15, 75, some "abc123"⟩

/-- The state right after the idempotent insert, before the transaction. -/
def afterProcess (st : DBState) (w : RefersionWebhook) (payload : String) : DBState :=
  (process_webhook_idempotently st "refersion" w.event_id w.event_type payload).1

/-- The webhook_event_id the idempotent insert reported. -/
def processedEventId (st : DBState) (w : RefersionWebhook) (payload : String) : Nat :=
  (process_webhook_idempotently st "refersion" w.event_id w.event_type
    payload).2.webhook_event_id

/-- A core_api state with a percent-commission link for slug abc123. -/
def c3CoreSt : CoreState :=
  ⟨[], [], [], [⟨5, "abc123", 9, 1⟩], [⟨1, "percent", 1 / 5⟩], 100⟩

/-- A Shopify order whose landing site carries subid inf_abc123_1. -/
def c3Payload : ShopifyPayload :=
  ⟨some "O9", 75, 0, 0, 75, "USD", "https://m.example/?ref=inf_abc123_1&x=1"⟩

/-- The signature-acceptance decision of the production branch of
handle_refersion_webhook: header present, of the form `sha256=<sig>`, and
the signature validates against the HMAC of the raw body. -/
def signatureAccepted (secret rawBody : List Nat) : Option String → Bool
  | none => false
  | some header =>
      match splitFirst '=' header.toList with
      | none => false
      | some (alg, sig) =>
          if String.mk alg ≠ "sha256" then false
          else validate_signature secret rawBody (String.mk sig)

/-- The sixteen characters hex digests are made of. -/
def hexAlpha : List Char := "0123456789abcdef".toList

/-! ### SHA-256 and HMAC test vectors (FIPS 180-4 / RFC-style checks) -/

theorem sha256Hex_abc_vector :
    sha256Hex "abc" =
      "ba7816bf8f01cfea414140de5dae2223b00361a396177a9cb410ff61f20015ad" := by
  decide

theorem hmacSha256_vector :
    hmacSha256Hex (strBytes "key")
        (strBytes "The quick brown fox jumps over the lazy dog") =
      "f7bc83f430538424b13298e6aa6fb143ef4d59a14946175997479dbc2d1a3cd8" := by
  decide

/-! ### C1: idempotency of process_webhook_idempotently -/

theorem keyMatch_newEventRow (st : DBState) (source extId eventType payload : String) :
    keyMatch source extId (newEventRow st source extId eventType payload) = true := by
  simp [keyMatch, newEventRow]

theorem process_fresh (st : DBState) (source extId eventType payload : String)
    (h : st.webhook_events.find? (keyMatch source extId) = none) :
    process_webhook_idempotently st source extId eventType payload =
      (afterFirstInsert st source extId eventType payload,
       ⟨false, st.nextId, none⟩) := by
  simp [process_webhook_idempotently, h, afterFirstInsert, newEventRow]

theorem process_on_inserted (st : DBState) (source extId eventType payload : String)
    (h : st.webhook_events.find? (keyMatch source extId) = none) :
    process_webhook_idempotently (afterFirstInsert st source extId eventType payload)
        source extId eventType payload =
      (afterFirstInsert st source extId eventType payload,
       ⟨true, st.nextId, none⟩) := by
  simp [process_webhook_idempotently, afterFirstInsert, List.find?_append, h,
    newEventRow, keyMatch]

theorem processCalls_closed_form (st : DBState)
    (source extId eventType payload : String)
    (h : st.webhook_events.find? (keyMatch source extId) = none) :
    ∀ n : Nat,
      processCalls st source extId eventType payload (n + 1) =
        (afterFirstInsert st source extId eventType payload,
         ⟨false, st.nextId, none⟩ ::
           List.replicate n ⟨true, st.nextId, none⟩) := by
  intro n
  induction n with
  | zero =>
      simp [processCalls, process_fresh st source extId eventType payload h]
  | succ n ih =>
      rw [processCalls, ih]
      simp [process_on_inserted st source extId eventType payload h,
        List.replicate_succ']

/-- C1.  For every `(source, external_event_id)` pair, repeating the same
webhook event any number of times creates exactly one WebhookEvent row: on a
key not yet present, `n + 1` calls of `process_webhook_idempotently` leave
exactly one row matching the key (the table grows by exactly one row), the
first call answers `is_duplicate = false`, every later call answers
`is_duplicate = true`, and all calls report the same `webhook_event_id`. -/
theorem webhook_idempotency (st : DBState)
    (source extId eventType payload : String) (n : Nat)
    (h : st.webhook_events.find? (keyMatch source extId) = none) :
    ((processCalls st source extId eventType payload (n + 1)).2 =
        ⟨false, st.nextId, none⟩ ::
          List.replicate n ⟨true, st.nextId, none⟩)
    ∧ ((processCalls st source extId eventType payload (n + 1)).1.webhook_events.filter
          (keyMatch source extId)).length = 1
    ∧ (processCalls st source extId eventType payload (n + 1)).1.webhook_events.length =
        st.webhook_events.length + 1 := by
  rw [processCalls_closed_form st source extId eventType payload h n]
  refine ⟨rfl, ?_, by simp [afterFirstInsert]⟩
  have hnil : st.webhook_events.filter (keyMatch source extId) = [] := by
    rcases List.find?_eq_none.mp h with _
    exact List.filter_eq_nil_iff.mpr (List.find?_eq_none.mp h)
  simp [afterFirstInsert, List.filter_append, hnil, keyMatch_newEventRow]

/-- C1 witness: three repeats of one Refersion event on an empty store. -/
theorem webhook_idempotency_witness :
    ((processCalls emptyDB "refersion" "evt_1" "sale" "{}" 3).2 =
        ⟨false, 0, none⟩ :: List.replicate 2 ⟨true, 0, none⟩)
    ∧ ((processCalls emptyDB "refersion" "evt_1" "sale" "{}" 3).1.webhook_events.filter
          (keyMatch "refersion" "evt_1")).length = 1
    ∧ (processCalls emptyDB "refersion" "evt_1" "sale" "{}" 3).1.webhook_events.length =
        emptyDB.webhook_events.length + 1 :=
  webhook_idempotency emptyDB "refersion" "evt_1" "sale" "{}" 2 rfl

/-! ### C10: the duplicate path of the handler is read-only -/

/-- C10.  Whenever `process_webhook_idempotently` reports
`is_duplicate = true`, `handle_refersion_webhook` returns 202 with the
existing webhook_event_id and conversion_id and the final state is exactly
the initial state: no conversion, commission, link-stat or webhook-event
write happens on the duplicate path, for every failure oracle. -/
theorem duplicate_path_read_only (st : DBState) (w : RefersionWebhook)
    (payload : String) (oracle : TxnFailure)
    (h : (process_webhook_idempotently st "refersion" w.event_id w.event_type
            payload).2.is_duplicate = true) :
    handleRefersionCore st w payload oracle =
      (st,
       ⟨202, "accepted",
        some (process_webhook_idempotently st "refersion" w.event_id
                w.event_type payload).2.webhook_event_id,
        (process_webhook_idempotently st "refersion" w.event_id w.event_type
            payload).2.conversion_id⟩) := by
  rcases hf : st.webhook_events.find? (keyMatch "refersion" w.event_id) with _ | r
  · exfalso
    rw [process_webhook_idempotently] at h
    simp [hf] at h
  · have hp : process_webhook_idempotently st "refersion" w.event_id
        w.event_type payload = (st, ⟨true, r.id, r.conversion_id⟩) := by
      rw [process_webhook_idempotently]
      simp [hf]
    rw [handleRefersionCore, hp]
    simp

/-- C10 witness: retrying evt_1 against `dupDB` returns 202 with the stored
ids (webhook event 7, conversion 3) and leaves the state untouched. -/
theorem duplicate_path_read_only_witness :
    handleRefersionCore dupDB retryWebhook "{}" noFailure =
      (dupDB,
       ⟨202, "accepted",
        some (process_webhook_idempotently dupDB "refersion"
                retryWebhook.event_id retryWebhook.event_type "{}").2.webhook_event_id,
        (process_webhook_idempotently dupDB "refersion" retryWebhook.event_id
            retryWebhook.event_type "{}").2.conversion_id⟩) :=
  duplicate_path_read_only dupDB retryWebhook "{}" noFailure (by decide)

/-! ### C2: at most one Conversion and Commission per order_id -/

theorem key_inj {α β : Type} (k : α → β) {l : List α}
    (h : l.Pairwise (fun x y => k x ≠ k y)) :
    ∀ {a b : α}, a ∈ l → b ∈ l → k a = k b → a = b := by
  induction l with
  | nil => intro a b ha; cases ha
  | cons c l ih =>
      rcases List.pairwise_cons.mp h with ⟨hc, hl⟩
      intro a b ha hb hk
      rcases List.mem_cons.mp ha with ha1 | ha2
      · rcases List.mem_cons.mp hb with hb1 | hb2
        · rw [ha1, hb1]
        · subst ha1
          exact absurd hk (hc b hb2)
      · rcases List.mem_cons.mp hb with hb1 | hb2
        · subst hb1
          exact absurd hk.symm (hc a ha2)
        · exact ih hl ha2 hb2 hk

theorem filter_len_le_one {α : Type} (p : α → Bool) {l : List α}
    (h : l.Pairwise (fun x y => ¬(p x = true ∧ p y = true))) :
    (l.filter p).length ≤ 1 := by
  induction l with
  | nil => simp
  | cons a l ih =>
      rcases List.pairwise_cons.mp h with ⟨ha, hl⟩
      by_cases hp : p a = true
      · have hnil : l.filter p = [] :=
          List.filter_eq_nil_iff.mpr (fun b hb hpb => ha b hb ⟨hp, hpb⟩)
        simp [hp, hnil]
      · simp only [List.filter_cons, if_neg hp]
        simpa using ih hl

theorem inv_at_most_one (st : DBState) (hInv : DBInv st) (oid : String) :
    convCountFor st oid ≤ 1 ∧ commCountFor st oid ≤ 1 := by
  constructor
  · refine filter_len_le_one _ (hInv.orders.imp ?_)
    intro a b hne ⟨hpa, hpb⟩
    exact hne ((beq_iff_eq.mp hpa).trans (beq_iff_eq.mp hpb).symm)
  · refine filter_len_le_one _ (hInv.comms.imp ?_)
    intro m1 m2 hne ⟨hp1, hp2⟩
    rcases List.any_eq_true.mp hp1 with ⟨c1, hc1m, hc1⟩
    rcases List.any_eq_true.mp hp2 with ⟨c2, hc2m, hc2⟩
    simp only [Bool.and_eq_true] at hc1 hc2
    rcases hc1 with ⟨hid1, hor1⟩
    rcases hc2 with ⟨hid2, hor2⟩
    have hceq : c1 = c2 :=
      key_inj (fun c => c.order_id) hInv.orders hc1m hc2m
        ((beq_iff_eq.mp hor1).trans (beq_iff_eq.mp hor2).symm)
    apply hne
    rw [← beq_iff_eq.mp hid1, ← beq_iff_eq.mp hid2, hceq]

theorem process_preserves_inv (st : DBState)
    (source extId eventType payload : String) (hInv : DBInv st) :
    DBInv (process_webhook_idempotently st source extId eventType payload).1 := by
  rw [process_webhook_idempotently]
  rcases hf : st.webhook_events.find? (keyMatch source extId) with _ | r
  · exact ⟨fun c hc => Nat.lt_succ_of_lt (hInv.convFresh c hc),
      fun m hm => Nat.lt_succ_of_lt (hInv.commFresh m hm),
      hInv.orders, hInv.comms⟩
  · exact hInv

theorem txn_preserves_inv (st1 : DBState) (w : RefersionWebhook)
    (link : TrackingLink) (weId : Nat) (oracle : TxnFailure)
    (hInv : DBInv st1) :
    DBInv (refersionTxn st1 w link weId oracle).1 := by
  rw [refersionTxn]
  split_ifs with h1 h2 h3 h4
  · exact hInv
  · exact hInv
  · exact hInv
  · exact hInv
  · have hany : st1.conversions.any (fun c => c.order_id == w.order_id) = false := by
      rcases hval : st1.conversions.any (fun c => c.order_id == w.order_id)
      · rfl
      · exact absurd (by simp [hval]) h1
    refine ⟨?_, ?_, ?_, ?_⟩
    · intro c hc
      rcases List.mem_append.mp hc with hc | hc
      · exact Nat.lt_of_lt_of_le (hInv.convFresh c hc)
          (by show st1.nextId ≤ st1.nextId + 2; omega)
      · rcases List.mem_singleton.mp hc with rfl
        show st1.nextId < st1.nextId + 2
        omega
    · intro m hm
      rcases List.mem_append.mp hm with hm | hm
      · exact Nat.lt_of_lt_of_le (hInv.commFresh m hm)
          (by show st1.nextId ≤ st1.nextId + 2; omega)
      · rcases List.mem_singleton.mp hm with rfl
        show st1.nextId < st1.nextId + 2
        omega
    · rw [List.pairwise_append]
      refine ⟨hInv.orders, List.pairwise_singleton _ _, ?_⟩
      intro c hc c2 hc2
      rcases List.mem_singleton.mp hc2 with rfl
      show c.order_id ≠ w.order_id
      intro horder
      have := List.any_eq_false.mp hany c hc
      simp [horder] at this
    · rw [List.pairwise_append]
      refine ⟨hInv.comms, List.pairwise_singleton _ _, ?_⟩
      intro m hm m2 hm2
      rcases List.mem_singleton.mp hm2 with rfl
      show m.conversion_id ≠ st1.nextId
      exact Nat.ne_of_lt (hInv.commFresh m hm)

theorem handle_preserves_inv (st : DBState) (w : RefersionWebhook)
    (payload : String) (oracle : TxnFailure) (hInv : DBInv st) :
    DBInv (handleRefersionCore st w payload oracle).1 := by
  have h1 : DBInv (process_webhook_idempotently st "refersion" w.event_id
      w.event_type payload).1 :=
    process_preserves_inv st "refersion" w.event_id w.event_type payload hInv
  rw [handleRefersionCore]
  split
  · exact h1
  · split
    · exact h1
    · exact txn_preserves_inv _ w _ _ oracle h1

theorem attribution_keeps_conversions (st : CoreState) (cid : Nat)
    (sid : String) (oracle : CoreFailure) :
    (process_attribution st cid sid oracle).1.conversions = st.conversions := by
  simp only [process_attribution]
  split
  · rfl
  · split
    · rfl
    · split
      · rfl
      · split
        · rfl
        · split <;> rfl

theorem shopify_preserves_orders (cst : CoreState) (p : ShopifyPayload)
    (co : CoreFailure)
    (hCore : cst.conversions.Pairwise (fun a b => a.order_id ≠ b.order_id)) :
    (process_shopify cst p co).1.conversions.Pairwise
      (fun a b => a.order_id ≠ b.order_id) := by
  simp only [process_shopify]
  split
  · exact hCore
  rename_i oid hoid
  split_ifs with hdup hfail
  · exact hCore
  · exact hCore
  · have hany : cst.conversions.any (fun c => c.order_id == oid) = false := by
      rcases hval : cst.conversions.any (fun c => c.order_id == oid)
      · rfl
      · exact absurd hval hdup
    have happ : ∀ c : CoreConversion, c.order_id = oid →
        (cst.conversions ++ [c]).Pairwise
          (fun a b => a.order_id ≠ b.order_id) := by
      intro c hc
      rw [List.pairwise_append]
      refine ⟨hCore, List.pairwise_singleton _ _, ?_⟩
      intro x hx y hy
      rcases List.mem_singleton.mp hy with rfl
      rw [hc]
      intro horder
      have := List.any_eq_false.mp hany x hx
      simp [horder] at this
    split
    · exact happ _ rfl
    · split <;>
        · rw [attribution_keeps_conversions]
          exact happ _ rfl

/-- C2 (amended).  Order uniqueness holds as an invariant: across both
implementations at most one Conversion (and at most one Commission) ever
exists per order_id, and core_api's process_shopify checks the order_id
first and reports a duplicate as a normal outcome with the state untouched —
but the Refersion handler performs no such pre-check (see the
counterexample: an order collision there surfaces as a 500 error, though
still without creating a second row). -/
theorem order_uniqueness (st : DBState) (w : RefersionWebhook)
    (payload : String) (oracle : TxnFailure) (cst : CoreState)
    (p : ShopifyPayload) (co : CoreFailure) (hInv : DBInv st)
    (hCore : cst.conversions.Pairwise (fun a b => a.order_id ≠ b.order_id)) :
    (∀ oid, convCountFor (handleRefersionCore st w payload oracle).1 oid ≤ 1
      ∧ commCountFor (handleRefersionCore st w payload oracle).1 oid ≤ 1)
    ∧ (process_shopify cst p co).1.conversions.Pairwise
        (fun a b => a.order_id ≠ b.order_id)
    ∧ (∀ oid, p.id = some oid →
        cst.conversions.any (fun c => c.order_id == oid) = true →
        process_shopify cst p co = (cst, ShopifyResult.duplicate oid)) := by
  refine ⟨fun oid => inv_at_most_one _
      (handle_preserves_inv st w payload oracle hInv) oid,
    shopify_preserves_orders cst p co hCore, ?_⟩
  intro oid hoid hany
  rw [process_shopify, hoid]
  simp [hany]

/-- C2 witness: on an empty Refersion store and a core store already holding
order O1, every per-order count stays at most 1 and the re-delivered O1 is
answered as a normal duplicate with the state untouched. -/
theorem order_uniqueness_witness :
    (∀ oid, convCountFor (handleRefersionCore emptyDB retryWebhook "{}" noFailure).1 oid ≤ 1
      ∧ commCountFor (handleRefersionCore emptyDB retryWebhook "{}" noFailure).1 oid ≤ 1)
    ∧ (process_shopify c2CoreSt c2Payload coreNoFailure).1.conversions.Pairwise
        (fun a b => a.order_id ≠ b.order_id)
    ∧ (∀ oid, c2Payload.id = some oid →
        c2CoreSt.conversions.any (fun c => c.order_id == oid) = true →
        process_shopify c2CoreSt c2Payload coreNoFailure =
          (c2CoreSt, ShopifyResult.duplicate oid)) :=
  order_uniqueness emptyDB retryWebhook "{}" noFailure c2CoreSt c2Payload
    coreNoFailure ⟨by decide, by decide, by decide, by decide⟩ (by decide)

/-- C2 counterexample: in the Refersion handler a distinct event id hitting
an existing order_id is NOT treated as already-processed — the conversion
insert violates the unique key and the request fails with a 500 error
response, contradicting the claim that the engine checks order_id first and
treats the collision as a normal outcome. -/
theorem order_collision_is_error :
    (handleRefersionCore c2St c2W "{}" noFailure).2.status = 500
    ∧ (handleRefersionCore c2St c2W "{}" noFailure).2.body_status = "error" := by
  constructor <;> decide

/-! ### C3: atomicity of the conversion write set -/

/-- C3 (amended).  In the Refersion route the four writes — Conversion
insert, Commission insert, webhook-event backref, link-stats update — run
inside one transaction: relative to the state after the idempotent insert,
either none of the four tables changes (duplicate, no matching link, or any
statement failing, which rolls the whole block back), or all four writes
land together with a 200 response.  (core_api's WebhookProcessor gives no
such guarantee — see the counterexample.) -/
theorem refersion_txn_atomic (st : DBState) (w : RefersionWebhook)
    (payload : String) (oracle : TxnFailure) :
    ((handleRefersionCore st w payload oracle).1.conversions =
        (afterProcess st w payload).conversions
      ∧ (handleRefersionCore st w payload oracle).1.commissions =
          (afterProcess st w payload).commissions
      ∧ (handleRefersionCore st w payload oracle).1.tracking_links =
          (afterProcess st w payload).tracking_links
      ∧ (handleRefersionCore st w payload oracle).1.webhook_events =
          (afterProcess st w payload).webhook_events)
    ∨ (∃ link : TrackingLink,
        findTrackingLink (afterProcess st w payload) w.tracking_id
            w.affiliate_id = some link
        ∧ (handleRefersionCore st w payload oracle).1.conversions =
            (afterProcess st w payload).conversions ++
              [⟨(afterProcess st w payload).nextId, link.id, w.order_id,
                w.sale_amount, w.commission_amount, "pending"⟩]
        ∧ (handleRefersionCore st w payload oracle).1.commissions =
            (afterProcess st w payload).commissions ++
              [⟨(afterProcess st w payload).nextId + 1, link.influencer_id,
                (afterProcess st w payload).nextId, w.commission_amount,
                refersionPlatformFee w.commission_amount,
                refersionNet w.commission_amount, "pending"⟩]
        ∧ (handleRefersionCore st w payload oracle).1.webhook_events =
            setConversionId (afterProcess st w payload).webhook_events
              (processedEventId st w payload) (afterProcess st w payload).nextId
        ∧ (handleRefersionCore st w payload oracle).1.tracking_links =
            bumpLinkStats (afterProcess st w payload).tracking_links link.id
              w.sale_amount
        ∧ (handleRefersionCore st w payload oracle).2.status = 200) := by
  rw [handleRefersionCore]
  split
  · exact Or.inl ⟨rfl, rfl, rfl, rfl⟩
  · split
    · exact Or.inl ⟨rfl, rfl, rfl, rfl⟩
    · rename_i link heq
      rw [refersionTxn]
      split_ifs
      · exact Or.inl ⟨rfl, rfl, rfl, rfl⟩
      · exact Or.inl ⟨rfl, rfl, rfl, rfl⟩
      · exact Or.inl ⟨rfl, rfl, rfl, rfl⟩
      · exact Or.inl ⟨rfl, rfl, rfl, rfl⟩
      · exact Or.inr ⟨link, heq, rfl, rfl, rfl, rfl, rfl⟩

/-- C3 counterexample: in core_api.py the same write set is NOT atomic —
with the commission INSERT failing, process_shopify leaves a committed
Conversion and Attribution behind with no Commission and reports a server
error, so the claim that either all writes land or none do is false on this
code path. -/
theorem core_partial_write :
    (process_shopify c3CoreSt c3Payload ⟨false, false, true⟩).2 =
        ShopifyResult.serverError
    ∧ (process_shopify c3CoreSt c3Payload ⟨false, false, true⟩).1.conversions.length = 1
    ∧ (process_shopify c3CoreSt c3Payload ⟨false, false, true⟩).1.attributions.length = 1
    ∧ (process_shopify c3CoreSt c3Payload ⟨false, false, true⟩).1.commissions.length = 0 := by
  with_unfolding_all decide

/-! ### C4: commission arithmetic -/

/-- C4 (amended).  The Refersion webhook route computes with Decimal,
embedded as exact rationals: the platform fee is exactly one fifth of the
gross, the net and the fee always recompose the gross exactly, and for
gross 20.00 the fee is exactly 4.00 and the net exactly 16.00; at gross
20.00 even the float path of core_api.py lands on exactly 4.00 and 16.00.
(But core_api's process_attribution computes with binary floats in general —
see the counterexample — and neither path ever rounds to cents.) -/
theorem commission_arithmetic :
    refersionPlatformFee 20 = 4 ∧ refersionNet 20 = 16
    ∧ corePlatformFee 20 = 4 ∧ coreNetCommission 20 = 16
    ∧ (∀ g : ℚ, refersionPlatformFee g = g * (1 / 5)
        ∧ refersionNet g + refersionPlatformFee g = g) := by
  refine ⟨by with_unfolding_all decide, by with_unfolding_all decide,
    by with_unfolding_all decide, by with_unfolding_all decide, ?_⟩
  intro g
  constructor
  · rw [refersionPlatformFee]
    ring
  · rw [refersionNet]
    ring

/-- C4 counterexample: commission amounts are NOT always computed with exact
decimal arithmetic — core_api's float path, at a fixed commission of 0.1,
produces a platform fee different both from exactly one fifth of the stored
gross and from the exact 0.02: binary floating point drifts. -/
theorem float_commission_inexact :
    corePlatformFee (coreGrossCommission "fixed" 0 (1 / 10)) ≠
        coreGrossCommission "fixed" 0 (1 / 10) * (1 / 5)
    ∧ corePlatformFee (coreGrossCommission "fixed" 0 (1 / 10)) ≠ 1 / 50 := by
  constructor <;> with_unfolding_all decide

/-! ### C5: the production signature gate -/

/-- C5 (amended).  When ENVIRONMENT is `production`, every webhook request
whose signature header is missing, malformed, or fails HMAC-SHA256
validation of the raw body is answered 401 with the state untouched — no
WebhookEvent, Conversion or Commission write, no counter update.  (In any
other environment the route skips validation entirely — see the
counterexample.) -/
theorem invalid_signature_rejected (secret rawBody : List Nat)
    (sigHeader : Option String) (st : DBState) (w : RefersionWebhook)
    (payload : String) (oracle : TxnFailure)
    (hsig : signatureAccepted secret rawBody sigHeader = false) :
    handleRefersionWebhook "production" secret sigHeader rawBody st w payload
        oracle = (st, ⟨401, "error", none, none⟩) := by
  rw [handleRefersionWebhook.eq_def]
  cases sigHeader with
  | none => rfl
  | some header =>
      rcases hsp : splitFirst '=' header.toList with _ | ⟨alg, sig⟩
      · have hsp2 : splitFirst '=' header.data = none := hsp
        simp [hsp, hsp2]
      · have hsp2 : splitFirst '=' header.data = some (alg, sig) := hsp
        rw [signatureAccepted, hsp] at hsig
        by_cases halg : String.mk alg = "sha256"
        · simp only [halg, ne_eq, not_true_eq_false, if_false] at hsig
          simp [hsp, hsp2, halg, hsig]
        · simp [hsp, hsp2, halg]

/-- C5 witness: a production request with no signature header at all is
rejected 401 against a concrete store, which stays untouched. -/
theorem invalid_signature_rejected_witness :
    handleRefersionWebhook "production"
        (strBytes "dev_secret_change_in_production") none [] emptyDB
        retryWebhook "{}" noFailure = (emptyDB, ⟨401, "error", none, none⟩) :=
  invalid_signature_rejected (strBytes "dev_secret_change_in_production")
    [] none emptyDB retryWebhook "{}" noFailure rfl

/-- C5 counterexample: outside production (the default ENVIRONMENT is
`development`) the same unsigned request is NOT answered 401 — it is
processed and writes a WebhookEvent, so the claim does not hold for every
request. -/
theorem dev_mode_skips_validation :
    (handleRefersionWebhook "development"
        (strBytes "dev_secret_change_in_production") none [] emptyDB
        retryWebhook "{}" noFailure).2.status ≠ 401
    ∧ (handleRefersionWebhook "development"
        (strBytes "dev_secret_change_in_production") none [] emptyDB
        retryWebhook "{}" noFailure).1 ≠ emptyDB := by
  constructor <;> decide

/-! ### C6: slug resolution -/

/-- C6 (amended).  The store query on a cache miss only ever returns rows
with `is_active = true` and the matching slug; on `/r/{slug}`
(redirect.py) an unknown or inactive slug yields 404 and a known
active slug yields 302 to exactly the stored destination_url; but on
`/l/{slug}` (redirects.py) an unknown slug yields a 302 redirect to `/`,
not a 404 — see the counterexample. -/
theorem slug_resolution (store : List TrackingLink) (slug : String)
    (writeOk : Bool) (links : List TrackingLink) (programs : List Program)
    (ip ua referer : String) :
    (∀ l, storeLookup store slug = some l → l.is_active = true ∧ l.slug = slug)
    ∧ (storeLookup store slug = none →
        redirect_slug CacheRead.miss writeOk store slug = ⟨404, none⟩)
    ∧ (∀ l, storeLookup store slug = some l →
        redirect_slug CacheRead.miss writeOk store slug =
          ⟨302, some l.destination_url⟩)
    ∧ (rlookup links programs slug = none →
        (handle_redirect none links programs slug ip ua referer).1 =
          ⟨302, some "/"⟩) := by
  refine ⟨?_, ?_, ?_, ?_⟩
  · intro l h
    have hp := List.find?_some h
    simp only [Bool.and_eq_true, beq_iff_eq] at hp
    exact ⟨hp.2, hp.1⟩
  · intro h
    simp [redirect_slug, h]
  · intro l h
    simp [redirect_slug, h]
  · intro h
    simp [handle_redirect, h]

/-- C6 counterexample: resolving an unknown slug through handle_redirect
(redirects.py) is a 302 to `/`, not the claimed 404 NotFound. -/
theorem unknown_slug_redirects_home :
    (handle_redirect none [] [] "nope" "203.0.113.7" "Mozilla/5.0" "").1 =
        ⟨302, some "/"⟩
    ∧ (handle_redirect none [] [] "nope" "203.0.113.7" "Mozilla/5.0" "").1 ≠
        ⟨404, none⟩ := by
  constructor <;> decide

/-! ### C7: cache failures never change resolution -/

/-- C7.  Cache failures are invisible in the outcome: a cache miss and a
cache read error resolve exactly like a store-only resolution, the outcome
never depends on whether the best-effort cache write succeeded, and
RedisClient.get returns None (a miss) when disconnected or when the read
raises — it never throws to the caller. -/
theorem cache_failure_degrades_to_store (store : List TrackingLink)
    (slug : String) (writeOk : Bool) :
    redirect_slug CacheRead.miss writeOk store slug = resolveStoreOnly store slug
    ∧ redirect_slug CacheRead.err writeOk store slug = resolveStoreOnly store slug
    ∧ (∀ cres w1 w2, redirect_slug cres w1 store slug = redirect_slug cres w2 store slug)
    ∧ (∀ v : Option String, redisGet false false v = none)
    ∧ (∀ (c : Bool) (v : Option String), redisGet c true v = none) := by
  refine ⟨rfl, rfl, fun cres w1 w2 => rfl, fun v => rfl, fun c v => ?_⟩
  cases c <;> rfl

/-! ### C8: additive, non-blocking fraud scoring -/

/-- C8.  Fraud scoring is additive and never drops a click: the recorded
score is exactly the 0.5 bot increment plus the 0.3 velocity increment for
whichever signals fired, it always lies in [0, 1], a click with both
signals scores 0.8, the click row is appended unconditionally (whatever the
score), and the Redis click counter is bumped whenever Redis is present —
regardless of the score. -/
theorem fraud_scoring_additive (st : ClickState) (linkId : Nat)
    (subid : Option String) (ip ua referrer device_id session_id : String)
    (redisCount : Option Nat) :
    ((track_click st linkId subid ip ua referrer device_id session_id
        redisCount).1.clicks =
      st.clicks ++ [(track_click st linkId subid ip ua referrer device_id
        session_id redisCount).2])
    ∧ (track_click st linkId subid ip ua referrer device_id session_id
        redisCount).2.fraud_score =
        (if (check_fraud_signals ua redisCount).is_bot then 1 / 2 else 0) +
          (if (check_fraud_signals ua redisCount).velocity_exceeded then 3 / 10 else 0)
    ∧ 0 ≤ (track_click st linkId subid ip ua referrer device_id session_id
        redisCount).2.fraud_score
    ∧ (track_click st linkId subid ip ua referrer device_id session_id
        redisCount).2.fraud_score ≤ 1
    ∧ ((check_fraud_signals ua redisCount).is_bot = true →
        (check_fraud_signals ua redisCount).velocity_exceeded = true →
        (track_click st linkId subid ip ua referrer device_id session_id
          redisCount).2.fraud_score = 4 / 5)
    ∧ (redisCount.isSome = true →
        (track_click st linkId subid ip ua referrer device_id session_id
          redisCount).1.statsClicks = st.statsClicks + 1) := by
  have hscore : (track_click st linkId subid ip ua referrer device_id
      session_id redisCount).2.fraud_score =
      (if (check_fraud_signals ua redisCount).is_bot then 1 / 2 else 0) +
        (if (check_fraud_signals ua redisCount).velocity_exceeded then 3 / 10
         else 0) := rfl
  refine ⟨rfl, hscore, ?_, ?_, ?_, ?_⟩
  · rw [hscore]
    cases (check_fraud_signals ua redisCount).is_bot <;>
      cases (check_fraud_signals ua redisCount).velocity_exceeded <;> norm_num
  · rw [hscore]
    cases (check_fraud_signals ua redisCount).is_bot <;>
      cases (check_fraud_signals ua redisCount).velocity_exceeded <;> norm_num
  · intro h1 h2
    rw [hscore, h1, h2]
    norm_num
  · intro h
    simp [track_click, h]

/-! ### C9: no plaintext IPs in recorded clicks -/

theorem hexChar_mem : ∀ n, n < 16 → hexChar n ∈ hexAlpha := by decide

theorem wordHex_mem (w : Nat) : ∀ c ∈ wordHex w, c ∈ hexAlpha := by
  intro c hc
  simp only [wordHex, List.mem_cons, List.not_mem_nil, or_false] at hc
  rcases hc with h | h | h | h | h | h | h | h <;>
    · rw [h]
      exact hexChar_mem _ (Nat.mod_lt _ (by norm_num))

theorem sha256Hex_chars (s : String) :
    ∀ c ∈ (sha256Hex s).toList, c ∈ hexAlpha := by
  intro c hc
  have hc2 : c ∈ wordHex (sha256Words (strBytes s)).a ++
      wordHex (sha256Words (strBytes s)).b ++ wordHex (sha256Words (strBytes s)).c ++
      wordHex (sha256Words (strBytes s)).d ++ wordHex (sha256Words (strBytes s)).e ++
      wordHex (sha256Words (strBytes s)).f ++ wordHex (sha256Words (strBytes s)).g ++
      wordHex (sha256Words (strBytes s)).hh := by
    simpa [sha256Hex, sha256HexBytes, List.append_assoc] using hc
  simp only [List.mem_append] at hc2
  rcases hc2 with ((((((h | h) | h) | h) | h) | h) | h) | h <;>
    exact wordHex_mem _ c h

theorem sha256Hex_ne (s other : String) (ch : Char) (hch : ch ∈ other.toList)
    (hno : ch ∉ hexAlpha) : sha256Hex s ≠ other := by
  intro he
  rw [← he] at hch
  exact hno (sha256Hex_chars s ch hch)

/-- C9 (amended).  No recorded click contains the client IP in plaintext —
both recorders store only SHA-256 hex digests derived from it (track_click
an unsalted `sha256(ip)`, handle_redirect the salted
`sha256(ip + ":skinstack")` — see the counterexample for the missing salt),
and the device fingerprint is a deterministic stable hash of exactly
`(user_agent, client_ip)`: two clicks recorded from any states with the
same pair get the same fingerprint.  Whenever the IP contains a character
outside the hex alphabet (every dotted IPv4 and every colon-separated IPv6
does), neither stored hash can equal the IP itself. -/
theorem click_ip_privacy (st st2 : ClickState) (linkId linkId2 : Nat)
    (subid subid2 : Option String)
    (ip ua referrer referrer2 device_id device_id2 session_id session_id2 : String)
    (redisCount redisCount2 : Option Nat) (rl : RLink)
    (links : List TrackingLink) (programs : List Program) (slug : String) :
    ((track_click st linkId subid ip ua referrer device_id session_id
        redisCount).2.ip_hash = sha256Hex ip)
    ∧ ((track_click st linkId subid ip ua referrer device_id session_id
        redisCount).2.fingerprint = get_device_fingerprint ua ip)
    ∧ ((track_click st linkId subid ip ua referrer device_id session_id
          redisCount).2.fingerprint =
        (track_click st2 linkId2 subid2 ip ua referrer2 device_id2 session_id2
          redisCount2).2.fingerprint)
    ∧ (∀ ch ∈ ip.toList, ch ∉ hexAlpha →
        (track_click st linkId subid ip ua referrer device_id session_id
            redisCount).2.ip_hash ≠ ip
        ∧ (handle_redirect (some rl) links programs slug ip ua referrer).2 =
            some ⟨rl.id, hash_ip ip, ua.take 500, referrer.take 500,
                  rDeviceType ua, rBrowser ua⟩
        ∧ hash_ip ip ≠ ip) := by
  have h1 : (track_click st linkId subid ip ua referrer device_id session_id
      redisCount).2.ip_hash = sha256Hex ip := by
    simp [track_click]
  have h2 : (track_click st linkId subid ip ua referrer device_id session_id
      redisCount).2.fingerprint = get_device_fingerprint ua ip := by
    simp [track_click]
  have h3 : (track_click st2 linkId2 subid2 ip ua referrer2 device_id2
      session_id2 redisCount2).2.fingerprint = get_device_fingerprint ua ip := by
    simp [track_click]
  refine ⟨h1, h2, h2.trans h3.symm, ?_⟩
  intro ch hch hno
  refine ⟨?_, rfl, sha256Hex_ne _ ip ch hch hno⟩
  rw [h1]
  exact sha256Hex_ne ip ip ch hch hno

/-- C9 counterexample: the claim says every stored click carries a salted
hash of the IP, but track_click (core_api.py) hashes the bare IP with no
salt: its stored ip_hash differs from the repository's salted hash_ip of
the same address. -/
theorem unsalted_ip_hash :
    (track_click ⟨[], 0⟩ 1 none "203.0.113.7" "Mozilla/5.0" "" "d1" "s1"
        none).2.ip_hash ≠ hash_ip "203.0.113.7" := by
  have h : (track_click ⟨[], 0⟩ 1 none "203.0.113.7" "Mozilla/5.0" "" "d1"
      "s1" none).2.ip_hash = sha256Hex "203.0.113.7" := by
    simp [track_click]
  rw [h, hash_ip]
  decide

end Afl
